import Mathlib

/-!
# SG2002 interrupt-controller layer

A shallow embedding of `arch/risc-v/src/sg2002/sg2002_irq.c`:
`up_irqinitialize`, `up_disable_irq`, `up_enable_irq`, `riscv_ack_irq` and
`up_irq_enable`, over an explicit register state (the two machine CSRs the file
touches and the memory-mapped PLIC words, indexed by address).

The numeric constants the file uses (`RISCV_IRQ_*`, `SG2002_IRQ_*`, `MIE_*`,
`MSTATUS_MIE`, `SG2002_PLIC_*`) live in headers, so they are fields of `Config`
and every theorem is stated for an arbitrary `Config`; what a theorem needs of
them is an explicit hypothesis.  Logging calls (`sinfo`, `sg2002_print_hex`) and
the optional stack coloration do not touch the register state and are left out.
-/

namespace SG2002

/-! ## Constants and register state -/

/-- Constants supplied by the headers `irq.h`, `riscv_internal.h` and `sg2002.h`,
together with the build switch `CONFIG_SUPPRESS_INTERRUPTS`.  IRQ numbers are C
`int`s; CSR bit masks and MMIO addresses are naturals. -/
structure Config where
  RISCV_IRQ_MSOFT : Int
  RISCV_IRQ_MTIMER : Int
  RISCV_IRQ_MEXT : Int
  SG2002_IRQ_TEMPSENS : Int
  SG2002_IRQ_MBOX : Int
  MIE_MSIE : Nat
  MIE_MTIE : Nat
  MIE_MEIE : Nat
  MSTATUS_MIE : Nat
  SG2002_PLIC_PRIORITY : Nat
  SG2002_PLIC_MIE0 : Nat
  SG2002_PLIC_MIE1 : Nat
  SG2002_PLIC_MTHRESHOLD : Nat
  SG2002_PLIC_MCLAIM : Nat
  CONFIG_SUPPRESS_INTERRUPTS : Bool

/-- Register state: the CSRs `mie` and `mstatus`, and the memory-mapped words by
address (`mem a` is the word stored at address `a`). -/
structure State where
  mie : Nat
  mstatus : Nat
  mem : Nat → Nat

/-- How a call ends: it returns normally with a register state, or it reaches
`PANIC()` with the register state at that point and never returns. -/
inductive Outcome where
  | returned (s : State)
  | panicked (s : State)

/-- The register state carried by an outcome. -/
def Outcome.state : Outcome → State
  | .returned s => s
  | .panicked s => s

/-- Whether the call took the fatal path. -/
def Outcome.isPanic : Outcome → Bool
  | .returned _ => false
  | .panicked _ => true

/-! ## Register access primitives -/

/-- Bits of `v` with every bit of `bits` cleared (`v & ~bits`). -/
def andNot (v bits : Nat) : Nat := v ^^^ (v &&& bits)

/-- Read of a 32-bit memory-mapped register: `getreg32(a)`. -/
def getreg32 (a : Nat) (s : State) : Nat := s.mem a % 2 ^ 32

/-- Write of a 32-bit memory-mapped register: `putreg32(v, a)`. -/
def putreg32 (v : Nat) (a : Nat) (s : State) : State :=
  { s with mem := fun x => if x = a then v % 2 ^ 32 else s.mem x }

/-- Modelled from the spec: `modifyreg32(addr, clearbits, setbits)` is declared
outside this file; it is the read-modify-write behind "toggle bit" in section
4.2: read the word, clear `clearbits`, set `setbits`, write the word back. -/
def modifyreg32 (a : Nat) (clearbits setbits : Nat) (s : State) : State :=
  putreg32 ((andNot (getreg32 a s) clearbits) ||| setbits) a s

/-- Modelled from the spec: the macro `SET_CSR(CSR_MIE, bits)` is defined
outside this file; it sets the given bits of the core-local interrupt-enable
register. -/
def SET_CSR_MIE (bits : Nat) (s : State) : State :=
  { s with mie := s.mie ||| bits }

/-- Modelled from the spec: the macro `CLEAR_CSR(CSR_MIE, bits)` is defined
outside this file; it clears the given bits of the core-local interrupt-enable
register. -/
def CLEAR_CSR_MIE (bits : Nat) (s : State) : State :=
  { s with mie := andNot s.mie bits }

/-- Modelled from the spec: the macro `READ_AND_SET_CSR(CSR_MSTATUS, bits)` is
defined outside this file; it atomically reads the status register and sets the
given bits, returning the value read. -/
def READ_AND_SET_CSR_MSTATUS (bits : Nat) (s : State) : Nat × State :=
  (s.mstatus, { s with mstatus := s.mstatus ||| bits })

/-- Modelled from the spec: `up_irq_save()` is an inline helper of `irq.h`, not
in this file; section 4.1 step 1 and section 4.3 say it clears the global
admission flag of the status register and returns the value read before. -/
def up_irq_save (cfg : Config) (s : State) : Nat × State :=
  (s.mstatus, { s with mstatus := andNot s.mstatus cfg.MSTATUS_MIE })

/-- Modelled from the spec: `riscv_exception_attach()` belongs to the generic
trap dispatcher; section 4.1 step 6 has it attach the trap vector only, so it
leaves the register state as it is. -/
def riscv_exception_attach (s : State) : State := s

/-- The value `1 << k` passed as a `uint32_t` bit mask. -/
def bitMask32 (k : Int) : Nat := 2 ^ k.toNat % 2 ^ 32

/-- The address `SG2002_PLIC_MIE0 + (4 * (extirq / 32))`. -/
def enableAddr (cfg : Config) (extirq : Int) : Nat :=
  cfg.SG2002_PLIC_MIE0 + (4 * (extirq.tdiv 32)).toNat

/-- The address `SG2002_PLIC_PRIORITY + (4 * id)`. -/
def priorityAddr (cfg : Config) (id : Int) : Nat :=
  ((cfg.SG2002_PLIC_PRIORITY : Int) + 4 * id).toNat

/-! ## The functions of `sg2002_irq.c` -/

/-- The function `up_irq_enable`: set MEIE in `mie`, then read `mstatus` and set its MIE bit;
the value read is returned. -/
def up_irq_enable (cfg : Config) (s : State) : Nat × State :=
  READ_AND_SET_CSR_MSTATUS cfg.MSTATUS_MIE (SET_CSR_MIE cfg.MIE_MEIE s)

/-- The function `up_enable_irq(irq)`: the core traps toggle a bit of `mie`, an
id above the base inside the supported range sets its enable-bank bit, an id
above the base outside that range is fatal, and any other id does nothing. -/
def up_enable_irq (cfg : Config) (irq : Int) (s : State) : Outcome :=
  if irq = cfg.RISCV_IRQ_MSOFT then
    .returned (SET_CSR_MIE cfg.MIE_MSIE s)
  else if irq = cfg.RISCV_IRQ_MTIMER then
    .returned (SET_CSR_MIE cfg.MIE_MTIE s)
  else if irq > cfg.RISCV_IRQ_MEXT then
    if cfg.SG2002_IRQ_TEMPSENS ≤ irq ∧ irq ≤ cfg.SG2002_IRQ_MBOX then
      let extirq : Int := irq - cfg.RISCV_IRQ_MEXT
      .returned (modifyreg32 (enableAddr cfg extirq) 0 (bitMask32 (extirq.tmod 32)) s)
    else
      .panicked s
  else
    .returned s

/-- The function `up_disable_irq(irq)`.  The local `extirq` starts at 0 and the range test
reads it before the offset is assigned, as in the source. -/
def up_disable_irq (cfg : Config) (irq : Int) (s : State) : Outcome :=
  let extirq : Int := 0
  if irq = cfg.RISCV_IRQ_MSOFT then
    .returned (CLEAR_CSR_MIE cfg.MIE_MSIE s)
  else if irq = cfg.RISCV_IRQ_MTIMER then
    .returned (CLEAR_CSR_MIE cfg.MIE_MTIE s)
  else if irq > cfg.RISCV_IRQ_MEXT then
    if cfg.SG2002_IRQ_TEMPSENS ≤ extirq ∧ extirq ≤ cfg.SG2002_IRQ_MBOX then
      let extirq : Int := irq - cfg.RISCV_IRQ_MEXT
      .returned (modifyreg32 (enableAddr cfg extirq) (bitMask32 (extirq.tmod 32)) 0 s)
    else
      .panicked s
  else
    .returned s

/-- The function `riscv_ack_irq(irq)`: the body is empty. -/
def riscv_ack_irq (_cfg : Config) (_irq : Int) (s : State) : State := s

/-- The priority loop of `up_irqinitialize`: `n` iterations starting at `id`,
each writing 1 to the priority word of `id` and incrementing `id`. -/
def priorityLoop (cfg : Config) : Nat → Int → State → State
  | 0, _, s => s
  | n + 1, id, s => priorityLoop cfg n (id + 1) (putreg32 1 (priorityAddr cfg id) s)

/-- Number of iterations of
`for (id = TEMPSENS - MEXT; id <= MBOX - MEXT; id++)`. -/
def priorityCount (cfg : Config) : Nat :=
  ((cfg.SG2002_IRQ_MBOX - cfg.RISCV_IRQ_MEXT) + 1
    - (cfg.SG2002_IRQ_TEMPSENS - cfg.RISCV_IRQ_MEXT)).toNat

/-- The function `up_irqinitialize()`: the statements of the source in order,
with the final `up_irq_enable()` under `#ifndef CONFIG_SUPPRESS_INTERRUPTS`. -/
def up_irqinitialize (cfg : Config) (s : State) : State :=
  let s1 := (up_irq_save cfg s).2
  let s2 := putreg32 0 cfg.SG2002_PLIC_MIE0 s1
  let s3 := putreg32 0 cfg.SG2002_PLIC_MIE1 s2
  let val := getreg32 cfg.SG2002_PLIC_MCLAIM s3
  let s4 := putreg32 val cfg.SG2002_PLIC_MCLAIM s3
  let s5 := priorityLoop cfg (priorityCount cfg)
    (cfg.SG2002_IRQ_TEMPSENS - cfg.RISCV_IRQ_MEXT) s4
  let s6 := putreg32 0 cfg.SG2002_PLIC_MTHRESHOLD s5
  let s7 := riscv_exception_attach s6
  if cfg.CONFIG_SUPPRESS_INTERRUPTS then s7 else (up_irq_enable cfg s7).2

/-! ## Spec-level notions -/

/-- Modelled from the spec: the supported external-source count `N` of section 3
is not a named constant of the source; the external offsets the source accepts
end at `SG2002_IRQ_MBOX - RISCV_IRQ_MEXT`, so `[0, N)` ends there. -/
def N (cfg : Config) : Int := cfg.SG2002_IRQ_MBOX - cfg.RISCV_IRQ_MEXT + 1

/-- Bit `offset % 32` of enable-bank word `offset / 32`. -/
def enableBit (cfg : Config) (offset : Int) (s : State) : Bool :=
  (getreg32 (enableAddr cfg offset) s).testBit (offset.tmod 32).toNat

/-- A concrete choice of the constants: the machine-mode trap numbers and CSR
masks of the RISC-V port, PLIC sources 16 to 61, and a PLIC at `0x70000000`. -/
def sampleConfig : Config where
  RISCV_IRQ_MSOFT := 27
  RISCV_IRQ_MTIMER := 31
  RISCV_IRQ_MEXT := 35
  SG2002_IRQ_TEMPSENS := 51
  SG2002_IRQ_MBOX := 96
  MIE_MSIE := 0x8
  MIE_MTIE := 0x80
  MIE_MEIE := 0x800
  MSTATUS_MIE := 0x8
  SG2002_PLIC_PRIORITY := 0x70000000
  SG2002_PLIC_MIE0 := 0x70002000
  SG2002_PLIC_MIE1 := 0x70002004
  SG2002_PLIC_MTHRESHOLD := 0x70200000
  SG2002_PLIC_MCLAIM := 0x70200004
  CONFIG_SUPPRESS_INTERRUPTS := false

/-- Power-on defaults: every register reads 0. -/
def zeroState : State := { mie := 0, mstatus := 0, mem := fun _ => 0 }

/-- What the theorems assume of the IRQ numbering: the two core traps lie below
the external base and are distinct, and the supported external range
`SG2002_IRQ_TEMPSENS .. SG2002_IRQ_MBOX` lies strictly above the base and fits
the two 32-bit enable-bank words. -/
structure Numbering (cfg : Config) : Prop where
  msoft_nonneg : 0 ≤ cfg.RISCV_IRQ_MSOFT
  mtimer_nonneg : 0 ≤ cfg.RISCV_IRQ_MTIMER
  msoft_lt : cfg.RISCV_IRQ_MSOFT < cfg.RISCV_IRQ_MEXT
  mtimer_lt : cfg.RISCV_IRQ_MTIMER < cfg.RISCV_IRQ_MEXT
  msoft_ne_mtimer : cfg.RISCV_IRQ_MSOFT ≠ cfg.RISCV_IRQ_MTIMER
  tempsens_gt : cfg.RISCV_IRQ_MEXT < cfg.SG2002_IRQ_TEMPSENS
  tempsens_le : cfg.SG2002_IRQ_TEMPSENS ≤ cfg.SG2002_IRQ_MBOX
  mbox_lt : cfg.SG2002_IRQ_MBOX - cfg.RISCV_IRQ_MEXT < 64

/-- What the theorems assume of the register map: the second enable-bank word
follows the first, the priority words of the indices in `[0, N)` lie below the
enable bank, and the threshold and claim words lie above it. -/
structure Layout (cfg : Config) : Prop where
  mie1_eq : cfg.SG2002_PLIC_MIE1 = cfg.SG2002_PLIC_MIE0 + 4
  priority_below : cfg.SG2002_PLIC_PRIORITY + 4 * (N cfg).toNat ≤ cfg.SG2002_PLIC_MIE0
  threshold_above : cfg.SG2002_PLIC_MIE1 < cfg.SG2002_PLIC_MTHRESHOLD
  claim_above : cfg.SG2002_PLIC_MTHRESHOLD < cfg.SG2002_PLIC_MCLAIM

/-- A register state whose memory-mapped words all read `0xFFFFFFFF`. -/
def onesState : State := { mie := 0, mstatus := 0, mem := fun _ => 0xFFFFFFFF }

/-! ## Basic facts about the primitives -/

theorem sampleConfig_numbering : Numbering sampleConfig :=
  ⟨by decide, by decide, by decide, by decide, by decide, by decide, by decide, by decide⟩

theorem sampleConfig_layout : Layout sampleConfig :=
  ⟨by decide, by decide, by decide, by decide⟩

theorem testBit_andNot (v bits i : Nat) :
    (andNot v bits).testBit i = (v.testBit i && !bits.testBit i) := by
  simp only [andNot, Nat.testBit_xor, Nat.testBit_and]
  cases v.testBit i <;> cases bits.testBit i <;> rfl

theorem andNot_zero (v : Nat) : andNot v 0 = v := by
  simp [andNot]

theorem getreg32_lt (a : Nat) (s : State) : getreg32 a s < 2 ^ 32 :=
  Nat.mod_lt _ (by decide)

theorem putreg32_mem_same (v a : Nat) (s : State) :
    (putreg32 v a s).mem a = v % 2 ^ 32 := by
  simp [putreg32]

theorem putreg32_mem_ne {x a : Nat} (h : x ≠ a) (v : Nat) (s : State) :
    (putreg32 v a s).mem x = s.mem x := by
  simp [putreg32, h]

theorem getreg32_putreg32_same (v a : Nat) (s : State) :
    getreg32 a (putreg32 v a s) = v % 2 ^ 32 := by
  simp [getreg32, putreg32]

theorem getreg32_putreg32_ne {a b : Nat} (h : a ≠ b) (v : Nat) (s : State) :
    getreg32 a (putreg32 v b s) = getreg32 a s := by
  simp [getreg32, putreg32, h]

theorem getreg32_modifyreg32_ne {a b : Nat} (h : a ≠ b) (c t : Nat) (s : State) :
    getreg32 a (modifyreg32 b c t s) = getreg32 a s := by
  simp [modifyreg32, getreg32_putreg32_ne h]

theorem testBit_getreg32_modifyreg32 (a c t : Nat) (s : State) (i : Nat)
    (ht : t < 2 ^ 32) :
    (getreg32 a (modifyreg32 a c t s)).testBit i
      = (((getreg32 a s).testBit i && !c.testBit i) || t.testBit i) := by
  have hg := getreg32_lt a s
  simp only [modifyreg32, getreg32_putreg32_same, Nat.testBit_mod_two_pow, Nat.testBit_or,
    testBit_andNot]
  by_cases hi : i < 32
  · simp [hi]
  · have h1 : (getreg32 a s).testBit i = false :=
      Nat.testBit_lt_two_pow (lt_of_lt_of_le hg (Nat.pow_le_pow_right (by decide) (by omega)))
    have h2 : t.testBit i = false :=
      Nat.testBit_lt_two_pow (lt_of_lt_of_le ht (Nat.pow_le_pow_right (by decide) (by omega)))
    simp [hi, h1, h2]

theorem bitMask32_lt (k : Int) : bitMask32 k < 2 ^ 32 :=
  Nat.mod_lt _ (by decide)

theorem testBit_bitMask32 (k : Int) (hk : k.toNat < 32) (i : Nat) :
    (bitMask32 k).testBit i = decide (k.toNat = i) := by
  have : 2 ^ k.toNat < 2 ^ 32 := Nat.pow_lt_pow_right (by decide) hk
  rw [bitMask32, Nat.mod_eq_of_lt this, Nat.testBit_two_pow]

theorem modifyreg32_mie (a c t : Nat) (s : State) : (modifyreg32 a c t s).mie = s.mie := rfl

theorem modifyreg32_mstatus (a c t : Nat) (s : State) :
    (modifyreg32 a c t s).mstatus = s.mstatus := rfl

/-! ## Offsets of supported external sources -/

theorem tmod32_toNat_lt (off : Int) (h0 : 0 ≤ off) : (off.tmod 32).toNat < 32 := by
  rw [Int.tmod_eq_emod h0 (by decide)]
  omega

theorem enableAddr_low (cfg : Config) (off : Int) (h0 : 0 ≤ off) (h1 : off < 32) :
    enableAddr cfg off = cfg.SG2002_PLIC_MIE0 := by
  rw [enableAddr, Int.tdiv_eq_ediv h0 (by decide)]
  have : off / 32 = 0 := by omega
  simp [this]

theorem enableAddr_high (cfg : Config) (off : Int) (h0 : 32 ≤ off) (h1 : off < 64) :
    enableAddr cfg off = cfg.SG2002_PLIC_MIE0 + 4 := by
  rw [enableAddr, Int.tdiv_eq_ediv (by omega) (by decide)]
  have : off / 32 = 1 := by omega
  simp [this]

/-! ## Unfolding `up_enable_irq` and `up_disable_irq` by case -/

theorem up_enable_irq_supported (cfg : Config) (s : State) (id : Int)
    (hs : id ≠ cfg.RISCV_IRQ_MSOFT) (ht : id ≠ cfg.RISCV_IRQ_MTIMER)
    (hb : cfg.RISCV_IRQ_MEXT < id)
    (hlo : cfg.SG2002_IRQ_TEMPSENS ≤ id) (hhi : id ≤ cfg.SG2002_IRQ_MBOX) :
    up_enable_irq cfg id s = .returned
      (modifyreg32 (enableAddr cfg (id - cfg.RISCV_IRQ_MEXT)) 0
        (bitMask32 ((id - cfg.RISCV_IRQ_MEXT).tmod 32)) s) := by
  simp [up_enable_irq, hs, ht, hb, hlo, hhi]

theorem up_enable_irq_unsupported (cfg : Config) (s : State) (id : Int)
    (hs : id ≠ cfg.RISCV_IRQ_MSOFT) (ht : id ≠ cfg.RISCV_IRQ_MTIMER)
    (hb : cfg.RISCV_IRQ_MEXT < id)
    (hout : ¬(cfg.SG2002_IRQ_TEMPSENS ≤ id ∧ id ≤ cfg.SG2002_IRQ_MBOX)) :
    up_enable_irq cfg id s = .panicked s := by
  simp only [up_enable_irq, hs, ht, if_false, gt_iff_lt, hb, if_true, hout]

theorem up_enable_irq_below (cfg : Config) (s : State) (id : Int)
    (hs : id ≠ cfg.RISCV_IRQ_MSOFT) (ht : id ≠ cfg.RISCV_IRQ_MTIMER)
    (hb : id ≤ cfg.RISCV_IRQ_MEXT) :
    up_enable_irq cfg id s = .returned s := by
  have : ¬(cfg.RISCV_IRQ_MEXT < id) := by omega
  simp only [up_enable_irq, hs, ht, if_false, gt_iff_lt, this]

theorem up_disable_irq_external (cfg : Config) (s : State) (id : Int)
    (hs : id ≠ cfg.RISCV_IRQ_MSOFT) (ht : id ≠ cfg.RISCV_IRQ_MTIMER)
    (hb : cfg.RISCV_IRQ_MEXT < id) (hpos : 0 < cfg.SG2002_IRQ_TEMPSENS) :
    up_disable_irq cfg id s = .panicked s := by
  have : ¬(cfg.SG2002_IRQ_TEMPSENS ≤ 0 ∧ 0 ≤ cfg.SG2002_IRQ_MBOX) := by omega
  simp only [up_disable_irq, hs, ht, if_false, gt_iff_lt, hb, if_true, this]

theorem up_disable_irq_below (cfg : Config) (s : State) (id : Int)
    (hs : id ≠ cfg.RISCV_IRQ_MSOFT) (ht : id ≠ cfg.RISCV_IRQ_MTIMER)
    (hb : id ≤ cfg.RISCV_IRQ_MEXT) :
    up_disable_irq cfg id s = .returned s := by
  have : ¬(cfg.RISCV_IRQ_MEXT < id) := by omega
  simp only [up_disable_irq, hs, ht, if_false, gt_iff_lt, this]

theorem up_disable_irq_clears (cfg : Config) (s : State) (id : Int)
    (hs : id ≠ cfg.RISCV_IRQ_MSOFT) (ht : id ≠ cfg.RISCV_IRQ_MTIMER)
    (hb : cfg.RISCV_IRQ_MEXT < id)
    (hz : cfg.SG2002_IRQ_TEMPSENS ≤ 0 ∧ 0 ≤ cfg.SG2002_IRQ_MBOX) :
    up_disable_irq cfg id s = .returned
      (modifyreg32 (enableAddr cfg (id - cfg.RISCV_IRQ_MEXT))
        (bitMask32 ((id - cfg.RISCV_IRQ_MEXT).tmod 32)) 0 s) := by
  simp only [up_disable_irq, hs, ht, if_false, gt_iff_lt, hb, if_true, hz, and_self]

theorem numbering_tempsens_pos {cfg : Config} (hn : Numbering cfg) :
    0 < cfg.SG2002_IRQ_TEMPSENS := by
  have h1 := hn.msoft_nonneg
  have h2 := hn.msoft_lt
  have h3 := hn.tempsens_gt
  omega

theorem enableBit_modifyreg32_set (cfg : Config) (s : State) (off : Int) (h0 : 0 ≤ off)
    (c : Nat) :
    enableBit cfg off
      (modifyreg32 (enableAddr cfg off) c (bitMask32 (off.tmod 32)) s) = true := by
  have hk := tmod32_toNat_lt off h0
  rw [enableBit, testBit_getreg32_modifyreg32 _ _ _ _ _ (bitMask32_lt _),
    testBit_bitMask32 _ hk]
  simp

theorem enableBit_modifyreg32_clear (cfg : Config) (s : State) (off : Int) (h0 : 0 ≤ off) :
    enableBit cfg off
      (modifyreg32 (enableAddr cfg off) (bitMask32 (off.tmod 32)) 0 s) = false := by
  have hk := tmod32_toNat_lt off h0
  rw [enableBit, testBit_getreg32_modifyreg32 _ _ _ _ _ (by decide),
    testBit_bitMask32 _ hk]
  simp

/-! ## Enabling and disabling external sources -/

theorem supported_roundtrip_stops_at_disable (cfg : Config) (hn : Numbering cfg)
    (s : State) (id : Int)
    (hlo : cfg.SG2002_IRQ_TEMPSENS ≤ id) (hhi : id ≤ cfg.SG2002_IRQ_MBOX) :
    ∃ s1, up_enable_irq cfg id s = .returned s1
      ∧ up_disable_irq cfg id s1 = .panicked s1
      ∧ enableBit cfg (id - cfg.RISCV_IRQ_MEXT) s1 = true := by
  have h1 := hn.msoft_lt
  have h2 := hn.mtimer_lt
  have h3 := hn.tempsens_gt
  have hs : id ≠ cfg.RISCV_IRQ_MSOFT := by omega
  have ht : id ≠ cfg.RISCV_IRQ_MTIMER := by omega
  have hb : cfg.RISCV_IRQ_MEXT < id := by omega
  exact ⟨_, up_enable_irq_supported cfg s id hs ht hb hlo hhi,
    up_disable_irq_external cfg _ id hs ht hb (numbering_tempsens_pos hn),
    enableBit_modifyreg32_set cfg s _ (by omega) 0⟩

/-- C1 (the code departs from the claim): at the supported external id
`SG2002_IRQ_TEMPSENS` (51 with the sample constants, offset 16, inside
`[0, N)`), from power-on defaults, `up_enable_irq` returns normally, but the
following `up_disable_irq` takes the fatal path instead of returning, and
bit 16 of enable-bank word 0 is still 1, not 0. -/
theorem roundtrip_supported_id_fails :
    (0 ≤ (51 : Int) - sampleConfig.RISCV_IRQ_MEXT
      ∧ (51 : Int) - sampleConfig.RISCV_IRQ_MEXT < N sampleConfig)
    ∧ (up_enable_irq sampleConfig 51 zeroState).isPanic = false
    ∧ (up_disable_irq sampleConfig 51
        (up_enable_irq sampleConfig 51 zeroState).state).isPanic = true
    ∧ enableBit sampleConfig ((51 : Int) - sampleConfig.RISCV_IRQ_MEXT)
        (up_disable_irq sampleConfig 51
          (up_enable_irq sampleConfig 51 zeroState).state).state = true := by
  decide

/-- C2 (as stated) fails at the id just below the base (offset -1): both
`up_enable_irq` and `up_disable_irq` return normally there. -/
theorem below_base_counterexample :
    ((34 : Int) - sampleConfig.RISCV_IRQ_MEXT = -1
      ∧ ¬(0 ≤ (34 : Int) - sampleConfig.RISCV_IRQ_MEXT
          ∧ (34 : Int) - sampleConfig.RISCV_IRQ_MEXT < N sampleConfig))
    ∧ ¬((up_enable_irq sampleConfig 34 zeroState).isPanic = true
        ∧ (up_disable_irq sampleConfig 34 zeroState).isPanic = true) := by
  decide

/-- C2 (amended): for every id whose offset `id - RISCV_IRQ_MEXT` is at least `N`
(for example offset = `N`), both `up_enable_irq(id)` and `up_disable_irq(id)`
take the fatal path, with the register state untouched when `PANIC()` is
reached. -/
theorem offset_ge_N_panics (cfg : Config) (hn : Numbering cfg) (s : State) (id : Int)
    (hoff : N cfg ≤ id - cfg.RISCV_IRQ_MEXT) :
    up_enable_irq cfg id s = .panicked s ∧ up_disable_irq cfg id s = .panicked s := by
  have h1 := hn.msoft_lt
  have h2 := hn.mtimer_lt
  have h3 := hn.tempsens_gt
  have h4 := hn.tempsens_le
  have hN : N cfg = cfg.SG2002_IRQ_MBOX - cfg.RISCV_IRQ_MEXT + 1 := rfl
  have hs : id ≠ cfg.RISCV_IRQ_MSOFT := by omega
  have ht : id ≠ cfg.RISCV_IRQ_MTIMER := by omega
  have hb : cfg.RISCV_IRQ_MEXT < id := by omega
  exact ⟨up_enable_irq_unsupported cfg s id hs ht hb (by omega),
    up_disable_irq_external cfg s id hs ht hb (numbering_tempsens_pos hn)⟩

/-- Witness for `offset_ge_N_panics`: offset `N` (id 97) with the sample
constants. -/
theorem offset_ge_N_panics_witness :
    N sampleConfig ≤ (97 : Int) - sampleConfig.RISCV_IRQ_MEXT
    ∧ up_enable_irq sampleConfig 97 zeroState = .panicked zeroState
    ∧ up_disable_irq sampleConfig 97 zeroState = .panicked zeroState :=
  ⟨by decide, offset_ge_N_panics sampleConfig sampleConfig_numbering zeroState 97 (by decide)⟩

/-- C3 (as stated) fails at `id = RISCV_IRQ_MEXT`, offset 0: from power-on
defaults `up_enable_irq` returns normally without setting enable-bank bit 0. -/
theorem enable_base_counterexample :
    (0 ≤ (35 : Int) - sampleConfig.RISCV_IRQ_MEXT
      ∧ (35 : Int) - sampleConfig.RISCV_IRQ_MEXT < N sampleConfig)
    ∧ ¬ ∃ s1, up_enable_irq sampleConfig 35 zeroState = .returned s1
        ∧ enableBit sampleConfig ((35 : Int) - sampleConfig.RISCV_IRQ_MEXT) s1 = true := by
  refine ⟨by decide, ?_⟩
  rintro ⟨s1, h1, h3⟩
  rw [up_enable_irq_below sampleConfig zeroState 35 (by decide) (by decide) (by decide)] at h1
  injection h1 with h1
  subst h1
  revert h3
  decide

/-- C3 (amended): for every register state and every id strictly above the base
with `SG2002_IRQ_TEMPSENS ≤ id ≤ SG2002_IRQ_MBOX`, `up_enable_irq(id)` returns
normally, afterwards bit `offset % 32` of enable-bank word `offset / 32` is 1
(`offset = id - RISCV_IRQ_MEXT`, and that word is MIE0 or MIE1), and every other
bit of both enable-bank words is unchanged. -/
theorem up_enable_irq_sets_bit (cfg : Config) (hn : Numbering cfg) (hl : Layout cfg)
    (s : State) (id : Int)
    (hb : cfg.RISCV_IRQ_MEXT < id)
    (hlo : cfg.SG2002_IRQ_TEMPSENS ≤ id) (hhi : id ≤ cfg.SG2002_IRQ_MBOX) :
    ∃ s1, up_enable_irq cfg id s = .returned s1
      ∧ enableBit cfg (id - cfg.RISCV_IRQ_MEXT) s1 = true
      ∧ (enableAddr cfg (id - cfg.RISCV_IRQ_MEXT) = cfg.SG2002_PLIC_MIE0
          ∨ enableAddr cfg (id - cfg.RISCV_IRQ_MEXT) = cfg.SG2002_PLIC_MIE1)
      ∧ ∀ a b : Nat, (a = cfg.SG2002_PLIC_MIE0 ∨ a = cfg.SG2002_PLIC_MIE1) →
          ¬(a = enableAddr cfg (id - cfg.RISCV_IRQ_MEXT)
            ∧ b = ((id - cfg.RISCV_IRQ_MEXT).tmod 32).toNat) →
          (getreg32 a s1).testBit b = (getreg32 a s).testBit b := by
  have h1 := hn.msoft_lt
  have h2 := hn.mtimer_lt
  have h3 := hn.mbox_lt
  have hs : id ≠ cfg.RISCV_IRQ_MSOFT := by omega
  have ht : id ≠ cfg.RISCV_IRQ_MTIMER := by omega
  have h0 : 0 ≤ id - cfg.RISCV_IRQ_MEXT := by omega
  refine ⟨_, up_enable_irq_supported cfg s id hs ht hb hlo hhi,
    enableBit_modifyreg32_set cfg s _ h0 0, ?_, ?_⟩
  · by_cases h32 : id - cfg.RISCV_IRQ_MEXT < 32
    · exact Or.inl (enableAddr_low cfg _ h0 h32)
    · exact Or.inr (by rw [enableAddr_high cfg _ (by omega) (by omega), hl.mie1_eq])
  · intro a b _ hne
    by_cases ha : a = enableAddr cfg (id - cfg.RISCV_IRQ_MEXT)
    · have hk := tmod32_toNat_lt _ h0
      have hb' : ((id - cfg.RISCV_IRQ_MEXT).tmod 32).toNat ≠ b := fun h => hne ⟨ha, h.symm⟩
      rw [ha, testBit_getreg32_modifyreg32 _ _ _ _ _ (bitMask32_lt _),
        testBit_bitMask32 _ hk]
      simp [hb']
    · exact congrArg (fun w => Nat.testBit w b) (getreg32_modifyreg32_ne ha _ _ _)

/-- Witness for `up_enable_irq_sets_bit`: the temperature-sensor source of the
sample constants, from power-on defaults. -/
theorem up_enable_irq_sets_bit_witness :
    ∃ s1, up_enable_irq sampleConfig 51 zeroState = .returned s1
      ∧ enableBit sampleConfig (51 - sampleConfig.RISCV_IRQ_MEXT) s1 = true
      ∧ (enableAddr sampleConfig (51 - sampleConfig.RISCV_IRQ_MEXT)
            = sampleConfig.SG2002_PLIC_MIE0
          ∨ enableAddr sampleConfig (51 - sampleConfig.RISCV_IRQ_MEXT)
            = sampleConfig.SG2002_PLIC_MIE1)
      ∧ ∀ a b : Nat, (a = sampleConfig.SG2002_PLIC_MIE0 ∨ a = sampleConfig.SG2002_PLIC_MIE1) →
          ¬(a = enableAddr sampleConfig (51 - sampleConfig.RISCV_IRQ_MEXT)
            ∧ b = ((51 - sampleConfig.RISCV_IRQ_MEXT).tmod 32).toNat) →
          (getreg32 a s1).testBit b = (getreg32 a zeroState).testBit b :=
  up_enable_irq_sets_bit sampleConfig sampleConfig_numbering sampleConfig_layout zeroState 51
    (by decide) (by decide) (by decide)

/-! ## Initialization -/

theorem priorityAddr_lt_mie0 {cfg : Config} (hl : Layout cfg) (i : Int) (h0 : 0 ≤ i)
    (h1 : i < N cfg) : priorityAddr cfg i < cfg.SG2002_PLIC_MIE0 := by
  have h := hl.priority_below
  unfold priorityAddr
  omega

theorem priorityLoop_mie (cfg : Config) (n : Nat) (id : Int) (s : State) :
    (priorityLoop cfg n id s).mie = s.mie := by
  induction n generalizing id s with
  | zero => rfl
  | succ n ih => rw [priorityLoop, ih]; rfl

theorem priorityLoop_mstatus (cfg : Config) (n : Nat) (id : Int) (s : State) :
    (priorityLoop cfg n id s).mstatus = s.mstatus := by
  induction n generalizing id s with
  | zero => rfl
  | succ n ih => rw [priorityLoop, ih]; rfl

theorem priorityLoop_mem_other (cfg : Config) (a : Nat) (n : Nat) (id : Int) (s : State)
    (h : ∀ k : Nat, k < n → a ≠ priorityAddr cfg (id + k)) :
    (priorityLoop cfg n id s).mem a = s.mem a := by
  induction n generalizing id s with
  | zero => rfl
  | succ n ih =>
    rw [priorityLoop, ih]
    · have h0 : a ≠ priorityAddr cfg id := by simpa using h 0 (Nat.succ_pos n)
      simp [putreg32, h0]
    · intro k hk
      have e : id + 1 + (k : Int) = id + ((k + 1 : Nat) : Int) := by push_cast; ring
      rw [e]
      exact h (k + 1) (Nat.succ_lt_succ hk)

theorem priorityLoop_mem_written (cfg : Config) (n : Nat) (id : Int) (s : State) (k : Nat)
    (hk : k < n) (h0 : 0 ≤ (cfg.SG2002_PLIC_PRIORITY : Int) + 4 * id) :
    (priorityLoop cfg n id s).mem (priorityAddr cfg (id + k)) = 1 := by
  induction n generalizing id s k with
  | zero => exact absurd hk (Nat.not_lt_zero k)
  | succ n ih =>
    rw [priorityLoop]
    cases k with
    | zero =>
      rw [priorityLoop_mem_other]
      · simp [putreg32]
      · intro j _
        unfold priorityAddr
        omega
    | succ k =>
      have e : id + ((k + 1 : Nat) : Int) = id + 1 + (k : Int) := by push_cast; ring
      rw [e]
      exact ih (id + 1) _ k (Nat.lt_of_succ_lt_succ hk) (by omega)

theorem init_mem (cfg : Config) (s : State) :
    ( up_irqinitialize cfg s).mem
      = (putreg32 0 cfg.SG2002_PLIC_MTHRESHOLD
          (priorityLoop cfg (priorityCount cfg)
            (cfg.SG2002_IRQ_TEMPSENS - cfg.RISCV_IRQ_MEXT)
            (putreg32
              (getreg32 cfg.SG2002_PLIC_MCLAIM
                (putreg32 0 cfg.SG2002_PLIC_MIE1
                  (putreg32 0 cfg.SG2002_PLIC_MIE0 (up_irq_save cfg s).2)))
              cfg.SG2002_PLIC_MCLAIM
              (putreg32 0 cfg.SG2002_PLIC_MIE1
                (putreg32 0 cfg.SG2002_PLIC_MIE0 (up_irq_save cfg s).2))))).mem := by
  unfold up_irqinitialize
  cases cfg.CONFIG_SUPPRESS_INTERRUPTS <;> rfl

theorem init_priority_written (cfg : Config) (hn : Numbering cfg) (hl : Layout cfg)
    (s : State) (i : Int)
    (hlo : cfg.SG2002_IRQ_TEMPSENS - cfg.RISCV_IRQ_MEXT ≤ i)
    (hhi : i ≤ cfg.SG2002_IRQ_MBOX - cfg.RISCV_IRQ_MEXT) :
    getreg32 (priorityAddr cfg i) ( up_irqinitialize cfg s) = 1 := by
  have hgt := hn.tempsens_gt
  have hth := hl.threshold_above
  have hm1 := hl.mie1_eq
  have hN : N cfg = cfg.SG2002_IRQ_MBOX - cfg.RISCV_IRQ_MEXT + 1 := rfl
  have hlt := priorityAddr_lt_mie0 hl i (by omega) (by omega)
  have hne : priorityAddr cfg i ≠ cfg.SG2002_PLIC_MTHRESHOLD := by omega
  have hi : i = cfg.SG2002_IRQ_TEMPSENS - cfg.RISCV_IRQ_MEXT
      + ((i - (cfg.SG2002_IRQ_TEMPSENS - cfg.RISCV_IRQ_MEXT)).toNat : Nat) := by omega
  have hw := priorityLoop_mem_written cfg (priorityCount cfg)
    (cfg.SG2002_IRQ_TEMPSENS - cfg.RISCV_IRQ_MEXT)
    (putreg32
      (getreg32 cfg.SG2002_PLIC_MCLAIM
        (putreg32 0 cfg.SG2002_PLIC_MIE1
          (putreg32 0 cfg.SG2002_PLIC_MIE0 (up_irq_save cfg s).2)))
      cfg.SG2002_PLIC_MCLAIM
      (putreg32 0 cfg.SG2002_PLIC_MIE1
        (putreg32 0 cfg.SG2002_PLIC_MIE0 (up_irq_save cfg s).2)))
    (i - (cfg.SG2002_IRQ_TEMPSENS - cfg.RISCV_IRQ_MEXT)).toNat
    (by unfold priorityCount; omega) (by omega)
  rw [← hi] at hw
  rw [getreg32, init_mem, putreg32_mem_ne hne, hw]
  rfl

/-- C4 (as stated) fails at external source index 0, which lies in `[0, N)`:
from power-on defaults its priority register still reads 0, not 1, after
`up_irqinitialize()`. -/
theorem init_priority_counterexample :
    ((0 : Int) ≤ 0 ∧ (0 : Int) < N sampleConfig)
    ∧ getreg32 (priorityAddr sampleConfig 0) ( up_irqinitialize sampleConfig zeroState) ≠ 1 := by
  decide

/-- C4 (amended): for every starting register state, after `up_irqinitialize()`
the threshold register reads 0, the priority register of every external source
index from `SG2002_IRQ_TEMPSENS - RISCV_IRQ_MEXT` to
`SG2002_IRQ_MBOX - RISCV_IRQ_MEXT` reads 1, and both enable-bank words (MIE0 and
MIE1) read 0. -/
theorem init_registers (cfg : Config) (hn : Numbering cfg) (hl : Layout cfg) (s : State) :
    getreg32 cfg.SG2002_PLIC_MTHRESHOLD ( up_irqinitialize cfg s) = 0
    ∧ (∀ i : Int, cfg.SG2002_IRQ_TEMPSENS - cfg.RISCV_IRQ_MEXT ≤ i →
        i ≤ cfg.SG2002_IRQ_MBOX - cfg.RISCV_IRQ_MEXT →
        getreg32 (priorityAddr cfg i) ( up_irqinitialize cfg s) = 1)
    ∧ getreg32 cfg.SG2002_PLIC_MIE0 ( up_irqinitialize cfg s) = 0
    ∧ getreg32 cfg.SG2002_PLIC_MIE1 ( up_irqinitialize cfg s) = 0 := by
  have hgt := hn.tempsens_gt
  have hle := hn.tempsens_le
  have hm1 := hl.mie1_eq
  have hth := hl.threshold_above
  have hcl := hl.claim_above
  have hN : N cfg = cfg.SG2002_IRQ_MBOX - cfg.RISCV_IRQ_MEXT + 1 := rfl
  have hother : ∀ a : Nat, cfg.SG2002_PLIC_MIE0 ≤ a → ∀ k : Nat, k < priorityCount cfg →
      a ≠ priorityAddr cfg (cfg.SG2002_IRQ_TEMPSENS - cfg.RISCV_IRQ_MEXT + k) := by
    intro a ha k hk
    have := priorityAddr_lt_mie0 hl (cfg.SG2002_IRQ_TEMPSENS - cfg.RISCV_IRQ_MEXT + k)
      (by omega) (by unfold priorityCount at hk; omega)
    omega
  refine ⟨?_, ?_, ?_, ?_⟩
  · rw [getreg32, init_mem, putreg32_mem_same]
    rfl
  · intro i hlo hhi
    exact init_priority_written cfg hn hl s i hlo hhi
  · have h1 : cfg.SG2002_PLIC_MIE0 ≠ cfg.SG2002_PLIC_MTHRESHOLD := by omega
    have h2 : cfg.SG2002_PLIC_MIE0 ≠ cfg.SG2002_PLIC_MCLAIM := by omega
    have h3 : cfg.SG2002_PLIC_MIE0 ≠ cfg.SG2002_PLIC_MIE1 := by omega
    rw [getreg32, init_mem, putreg32_mem_ne h1,
      priorityLoop_mem_other cfg _ _ _ _ (hother _ (le_refl _)),
      putreg32_mem_ne h2, putreg32_mem_ne h3, putreg32_mem_same]
    rfl
  · have h1 : cfg.SG2002_PLIC_MIE1 ≠ cfg.SG2002_PLIC_MTHRESHOLD := by omega
    have h2 : cfg.SG2002_PLIC_MIE1 ≠ cfg.SG2002_PLIC_MCLAIM := by omega
    rw [getreg32, init_mem, putreg32_mem_ne h1,
      priorityLoop_mem_other cfg _ _ _ _ (hother _ (by omega)),
      putreg32_mem_ne h2, putreg32_mem_same]
    rfl

/-- Witness for `init_registers`: the sample constants, from power-on
defaults. -/
theorem init_registers_witness :
    getreg32 sampleConfig.SG2002_PLIC_MTHRESHOLD ( up_irqinitialize sampleConfig zeroState) = 0
    ∧ (∀ i : Int, sampleConfig.SG2002_IRQ_TEMPSENS - sampleConfig.RISCV_IRQ_MEXT ≤ i →
        i ≤ sampleConfig.SG2002_IRQ_MBOX - sampleConfig.RISCV_IRQ_MEXT →
        getreg32 (priorityAddr sampleConfig i) ( up_irqinitialize sampleConfig zeroState) = 1)
    ∧ getreg32 sampleConfig.SG2002_PLIC_MIE0 ( up_irqinitialize sampleConfig zeroState) = 0
    ∧ getreg32 sampleConfig.SG2002_PLIC_MIE1 ( up_irqinitialize sampleConfig zeroState) = 0 :=
  init_registers sampleConfig sampleConfig_numbering sampleConfig_layout zeroState

/-! ## Symmetry of enable and disable -/

theorem supported_enable_returns_disable_panics (cfg : Config) (hn : Numbering cfg)
    (s : State) (id : Int)
    (hlo : cfg.SG2002_IRQ_TEMPSENS ≤ id) (hhi : id ≤ cfg.SG2002_IRQ_MBOX) :
    (up_enable_irq cfg id s).isPanic = false ∧ up_disable_irq cfg id s = .panicked s := by
  have h1 := hn.msoft_lt
  have h2 := hn.mtimer_lt
  have h3 := hn.tempsens_gt
  have hs : id ≠ cfg.RISCV_IRQ_MSOFT := by omega
  have ht : id ≠ cfg.RISCV_IRQ_MTIMER := by omega
  have hb : cfg.RISCV_IRQ_MEXT < id := by omega
  refine ⟨?_, up_disable_irq_external cfg s id hs ht hb (numbering_tempsens_pos hn)⟩
  rw [up_enable_irq_supported cfg s id hs ht hb hlo hhi]
  rfl

/-- C5 (the code departs from the claim): at the supported external id
`SG2002_IRQ_TEMPSENS` (51 with the sample constants), from power-on defaults,
`up_enable_irq` returns normally while `up_disable_irq` takes the fatal path, so
the two are not fatal on the same ids. -/
theorem disable_panics_where_enable_returns :
    (sampleConfig.SG2002_IRQ_TEMPSENS = 51)
    ∧ (up_enable_irq sampleConfig 51 zeroState).isPanic = false
    ∧ enableBit sampleConfig (51 - sampleConfig.RISCV_IRQ_MEXT)
        (up_enable_irq sampleConfig 51 zeroState).state = true
    ∧ (up_disable_irq sampleConfig 51 zeroState).isPanic = true := by
  decide

/-! ## Frame properties of enable and disable -/

theorem up_enable_irq_mem_frame (cfg : Config) (hn : Numbering cfg) (hl : Layout cfg)
    (s : State) (id : Int) (a : Nat)
    (h0 : a ≠ cfg.SG2002_PLIC_MIE0) (h1 : a ≠ cfg.SG2002_PLIC_MIE1) :
    (up_enable_irq cfg id s).state.mem a = s.mem a := by
  have hm := hn.mbox_lt
  have he := hl.mie1_eq
  unfold up_enable_irq
  split_ifs with c1 c2 c3 c4
  · rfl
  · rfl
  · have hoff0 : 0 ≤ id - cfg.RISCV_IRQ_MEXT := by omega
    have ha : a ≠ enableAddr cfg (id - cfg.RISCV_IRQ_MEXT) := by
      by_cases h32 : id - cfg.RISCV_IRQ_MEXT < 32
      · rw [enableAddr_low cfg _ hoff0 h32]; exact h0
      · rw [enableAddr_high cfg _ (by omega) (by omega), ← he]; exact h1
    exact putreg32_mem_ne ha _ _
  · rfl
  · rfl

theorem up_disable_irq_mem_frame (cfg : Config) (hn : Numbering cfg)
    (s : State) (id : Int) :
    (up_disable_irq cfg id s).state.mem = s.mem := by
  have hp := numbering_tempsens_pos hn
  have hz : ¬(cfg.SG2002_IRQ_TEMPSENS ≤ 0 ∧ 0 ≤ cfg.SG2002_IRQ_MBOX) := by omega
  unfold up_disable_irq
  simp only [hz, if_false]
  split_ifs <;> rfl

theorem up_enable_irq_mie_frame (cfg : Config) (s : State) (id : Int)
    (hs : id ≠ cfg.RISCV_IRQ_MSOFT) (ht : id ≠ cfg.RISCV_IRQ_MTIMER) :
    (up_enable_irq cfg id s).state.mie = s.mie := by
  unfold up_enable_irq
  simp only [hs, ht, if_false]
  split_ifs <;> rfl

theorem up_disable_irq_mie_frame (cfg : Config) (s : State) (id : Int)
    (hs : id ≠ cfg.RISCV_IRQ_MSOFT) (ht : id ≠ cfg.RISCV_IRQ_MTIMER) :
    (up_disable_irq cfg id s).state.mie = s.mie := by
  unfold up_disable_irq
  simp only [hs, ht, if_false]
  split_ifs <;> rfl

theorem up_enable_irq_core_mem (cfg : Config) (s : State) (id : Int)
    (h : id = cfg.RISCV_IRQ_MSOFT ∨ id = cfg.RISCV_IRQ_MTIMER) :
    (up_enable_irq cfg id s).state.mem = s.mem := by
  rcases h with h | h
  · simp [up_enable_irq, h, Outcome.state, SET_CSR_MIE]
  · by_cases c : cfg.RISCV_IRQ_MTIMER = cfg.RISCV_IRQ_MSOFT
    · simp [up_enable_irq, h, c, Outcome.state, SET_CSR_MIE]
    · simp [up_enable_irq, h, c, Outcome.state, SET_CSR_MIE]

theorem up_disable_irq_core_mem (cfg : Config) (s : State) (id : Int)
    (h : id = cfg.RISCV_IRQ_MSOFT ∨ id = cfg.RISCV_IRQ_MTIMER) :
    (up_disable_irq cfg id s).state.mem = s.mem := by
  rcases h with h | h
  · simp [up_disable_irq, h, Outcome.state, CLEAR_CSR_MIE]
  · by_cases c : cfg.RISCV_IRQ_MTIMER = cfg.RISCV_IRQ_MSOFT
    · simp [up_disable_irq, h, c, Outcome.state, CLEAR_CSR_MIE]
    · simp [up_disable_irq, h, c, Outcome.state, CLEAR_CSR_MIE]

/-- C6: for every id and every register state, neither `up_enable_irq(id)` nor
`up_disable_irq(id)` changes the priority register of any external source index
in `[0, N)` or the threshold register, whether the call returns normally or
ends at `PANIC()`. -/
theorem enable_disable_keep_priority_threshold (cfg : Config) (hn : Numbering cfg)
    (hl : Layout cfg) (s : State) (id : Int) :
    (∀ i : Int, 0 ≤ i → i < N cfg →
        getreg32 (priorityAddr cfg i) (up_enable_irq cfg id s).state
            = getreg32 (priorityAddr cfg i) s
        ∧ getreg32 (priorityAddr cfg i) (up_disable_irq cfg id s).state
            = getreg32 (priorityAddr cfg i) s)
    ∧ getreg32 cfg.SG2002_PLIC_MTHRESHOLD (up_enable_irq cfg id s).state
        = getreg32 cfg.SG2002_PLIC_MTHRESHOLD s
    ∧ getreg32 cfg.SG2002_PLIC_MTHRESHOLD (up_disable_irq cfg id s).state
        = getreg32 cfg.SG2002_PLIC_MTHRESHOLD s := by
  have he := hl.mie1_eq
  have hth := hl.threshold_above
  refine ⟨?_, ?_, ?_⟩
  · intro i h0 h1
    have hlt := priorityAddr_lt_mie0 hl i h0 h1
    constructor
    · rw [getreg32, getreg32,
        up_enable_irq_mem_frame cfg hn hl s id _ (by omega) (by omega)]
    · rw [getreg32, getreg32, up_disable_irq_mem_frame cfg hn s id]
  · rw [getreg32, getreg32,
      up_enable_irq_mem_frame cfg hn hl s id _ (by omega) (by omega)]
  · rw [getreg32, getreg32, up_disable_irq_mem_frame cfg hn s id]

/-- Witness for `enable_disable_keep_priority_threshold`: the sample constants,
enabling and disabling the temperature-sensor source from power-on defaults. -/
theorem enable_disable_keep_priority_threshold_witness :
    (∀ i : Int, 0 ≤ i → i < N sampleConfig →
        getreg32 (priorityAddr sampleConfig i) (up_enable_irq sampleConfig 51 zeroState).state
            = getreg32 (priorityAddr sampleConfig i) zeroState
        ∧ getreg32 (priorityAddr sampleConfig i) (up_disable_irq sampleConfig 51 zeroState).state
            = getreg32 (priorityAddr sampleConfig i) zeroState)
    ∧ getreg32 sampleConfig.SG2002_PLIC_MTHRESHOLD (up_enable_irq sampleConfig 51 zeroState).state
        = getreg32 sampleConfig.SG2002_PLIC_MTHRESHOLD zeroState
    ∧ getreg32 sampleConfig.SG2002_PLIC_MTHRESHOLD (up_disable_irq sampleConfig 51 zeroState).state
        = getreg32 sampleConfig.SG2002_PLIC_MTHRESHOLD zeroState :=
  enable_disable_keep_priority_threshold sampleConfig sampleConfig_numbering
    sampleConfig_layout zeroState 51

/-- C7: for every register state, `up_enable_irq` / `up_disable_irq` on the
software-interrupt id or the timer-interrupt id leave both external enable-bank
words unchanged, and on any external id (an id at or above `RISCV_IRQ_MEXT`)
they leave the core-local interrupt-enable register `mie` unchanged. -/
theorem core_and_external_isolated (cfg : Config) (hn : Numbering cfg) (s : State) :
    (∀ id : Int, id = cfg.RISCV_IRQ_MSOFT ∨ id = cfg.RISCV_IRQ_MTIMER →
        getreg32 cfg.SG2002_PLIC_MIE0 (up_enable_irq cfg id s).state
            = getreg32 cfg.SG2002_PLIC_MIE0 s
        ∧ getreg32 cfg.SG2002_PLIC_MIE1 (up_enable_irq cfg id s).state
            = getreg32 cfg.SG2002_PLIC_MIE1 s
        ∧ getreg32 cfg.SG2002_PLIC_MIE0 (up_disable_irq cfg id s).state
            = getreg32 cfg.SG2002_PLIC_MIE0 s
        ∧ getreg32 cfg.SG2002_PLIC_MIE1 (up_disable_irq cfg id s).state
            = getreg32 cfg.SG2002_PLIC_MIE1 s)
    ∧ (∀ id : Int, cfg.RISCV_IRQ_MEXT ≤ id →
        (up_enable_irq cfg id s).state.mie = s.mie
        ∧ (up_disable_irq cfg id s).state.mie = s.mie) := by
  have h1 := hn.msoft_lt
  have h2 := hn.mtimer_lt
  constructor
  · intro id hid
    simp only [getreg32, up_enable_irq_core_mem cfg s id hid,
      up_disable_irq_core_mem cfg s id hid, and_self]
  · intro id hid
    exact ⟨up_enable_irq_mie_frame cfg s id (by omega) (by omega),
      up_disable_irq_mie_frame cfg s id (by omega) (by omega)⟩

/-- Witness for `core_and_external_isolated`: the sample constants, from a state
whose memory-mapped words are all ones. -/
theorem core_and_external_isolated_witness :
    (∀ id : Int, id = sampleConfig.RISCV_IRQ_MSOFT ∨ id = sampleConfig.RISCV_IRQ_MTIMER →
        getreg32 sampleConfig.SG2002_PLIC_MIE0 (up_enable_irq sampleConfig id onesState).state
            = getreg32 sampleConfig.SG2002_PLIC_MIE0 onesState
        ∧ getreg32 sampleConfig.SG2002_PLIC_MIE1 (up_enable_irq sampleConfig id onesState).state
            = getreg32 sampleConfig.SG2002_PLIC_MIE1 onesState
        ∧ getreg32 sampleConfig.SG2002_PLIC_MIE0 (up_disable_irq sampleConfig id onesState).state
            = getreg32 sampleConfig.SG2002_PLIC_MIE0 onesState
        ∧ getreg32 sampleConfig.SG2002_PLIC_MIE1 (up_disable_irq sampleConfig id onesState).state
            = getreg32 sampleConfig.SG2002_PLIC_MIE1 onesState)
    ∧ (∀ id : Int, sampleConfig.RISCV_IRQ_MEXT ≤ id →
        (up_enable_irq sampleConfig id onesState).state.mie = onesState.mie
        ∧ (up_disable_irq sampleConfig id onesState).state.mie = onesState.mie) :=
  core_and_external_isolated sampleConfig sampleConfig_numbering onesState

/-! ## Core traps -/

/-- C8: for every register state, `up_enable_irq(RISCV_IRQ_MSOFT)` returns
normally having set, and `up_disable_irq(RISCV_IRQ_MSOFT)` returns normally
having cleared, exactly the bits of `MIE_MSIE` in `mie`; with
`RISCV_IRQ_MTIMER` they do the same for `MIE_MTIE`.  Every other bit of `mie`
is unchanged, and so are `mstatus` and the memory-mapped words. -/
theorem core_trap_bits (cfg : Config)
    (hne : cfg.RISCV_IRQ_MSOFT ≠ cfg.RISCV_IRQ_MTIMER) (s : State) :
    (∃ s1, up_enable_irq cfg cfg.RISCV_IRQ_MSOFT s = .returned s1
        ∧ (∀ i, s1.mie.testBit i = (s.mie.testBit i || cfg.MIE_MSIE.testBit i))
        ∧ s1.mstatus = s.mstatus ∧ s1.mem = s.mem)
    ∧ (∃ s1, up_disable_irq cfg cfg.RISCV_IRQ_MSOFT s = .returned s1
        ∧ (∀ i, s1.mie.testBit i = (s.mie.testBit i && !cfg.MIE_MSIE.testBit i))
        ∧ s1.mstatus = s.mstatus ∧ s1.mem = s.mem)
    ∧ (∃ s1, up_enable_irq cfg cfg.RISCV_IRQ_MTIMER s = .returned s1
        ∧ (∀ i, s1.mie.testBit i = (s.mie.testBit i || cfg.MIE_MTIE.testBit i))
        ∧ s1.mstatus = s.mstatus ∧ s1.mem = s.mem)
    ∧ (∃ s1, up_disable_irq cfg cfg.RISCV_IRQ_MTIMER s = .returned s1
        ∧ (∀ i, s1.mie.testBit i = (s.mie.testBit i && !cfg.MIE_MTIE.testBit i))
        ∧ s1.mstatus = s.mstatus ∧ s1.mem = s.mem) := by
  have hne' : cfg.RISCV_IRQ_MTIMER ≠ cfg.RISCV_IRQ_MSOFT := fun h => hne h.symm
  refine ⟨⟨SET_CSR_MIE cfg.MIE_MSIE s, ?_, ?_, rfl, rfl⟩,
    ⟨CLEAR_CSR_MIE cfg.MIE_MSIE s, ?_, ?_, rfl, rfl⟩,
    ⟨SET_CSR_MIE cfg.MIE_MTIE s, ?_, ?_, rfl, rfl⟩,
    ⟨CLEAR_CSR_MIE cfg.MIE_MTIE s, ?_, ?_, rfl, rfl⟩⟩
  · simp [up_enable_irq]
  · intro i; exact Nat.testBit_or _ _ _
  · simp [up_disable_irq]
  · intro i; exact testBit_andNot _ _ _
  · simp [up_enable_irq, hne']
  · intro i; exact Nat.testBit_or _ _ _
  · simp [up_disable_irq, hne']
  · intro i; exact testBit_andNot _ _ _

/-- Witness for `core_trap_bits`: the sample constants, from power-on
defaults. -/
theorem core_trap_bits_witness :
    (∃ s1, up_enable_irq sampleConfig sampleConfig.RISCV_IRQ_MSOFT zeroState = .returned s1
        ∧ (∀ i, s1.mie.testBit i
            = (zeroState.mie.testBit i || sampleConfig.MIE_MSIE.testBit i))
        ∧ s1.mstatus = zeroState.mstatus ∧ s1.mem = zeroState.mem)
    ∧ (∃ s1, up_disable_irq sampleConfig sampleConfig.RISCV_IRQ_MSOFT zeroState = .returned s1
        ∧ (∀ i, s1.mie.testBit i
            = (zeroState.mie.testBit i && !sampleConfig.MIE_MSIE.testBit i))
        ∧ s1.mstatus = zeroState.mstatus ∧ s1.mem = zeroState.mem)
    ∧ (∃ s1, up_enable_irq sampleConfig sampleConfig.RISCV_IRQ_MTIMER zeroState = .returned s1
        ∧ (∀ i, s1.mie.testBit i
            = (zeroState.mie.testBit i || sampleConfig.MIE_MTIE.testBit i))
        ∧ s1.mstatus = zeroState.mstatus ∧ s1.mem = zeroState.mem)
    ∧ (∃ s1, up_disable_irq sampleConfig sampleConfig.RISCV_IRQ_MTIMER zeroState = .returned s1
        ∧ (∀ i, s1.mie.testBit i
            = (zeroState.mie.testBit i && !sampleConfig.MIE_MTIE.testBit i))
        ∧ s1.mstatus = zeroState.mstatus ∧ s1.mem = zeroState.mem) :=
  core_trap_bits sampleConfig (by decide) zeroState

/-! ## Global interrupt admission -/

/-- C9: for every register state, `up_irq_enable()` sets the bits of `MIE_MEIE`
in `mie` and of `MSTATUS_MIE` in `mstatus`, leaves every other bit of both
registers (and every memory-mapped word) unchanged, and returns as token the
value `mstatus` had before the call, so the token's admission bit is the global
admission flag as it was before the call. -/
theorem up_irq_enable_sets_and_returns_old (cfg : Config) (s : State) :
    (∀ i, (up_irq_enable cfg s).2.mie.testBit i
        = (s.mie.testBit i || cfg.MIE_MEIE.testBit i))
    ∧ (∀ i, (up_irq_enable cfg s).2.mstatus.testBit i
        = (s.mstatus.testBit i || cfg.MSTATUS_MIE.testBit i))
    ∧ (up_irq_enable cfg s).2.mem = s.mem
    ∧ (up_irq_enable cfg s).1 = s.mstatus
    ∧ (up_irq_enable cfg s).1 &&& cfg.MSTATUS_MIE = s.mstatus &&& cfg.MSTATUS_MIE :=
  ⟨fun _ => Nat.testBit_or _ _ _, fun _ => Nat.testBit_or _ _ _, rfl, rfl, rfl⟩

theorem init_mstatus (cfg : Config) (h : cfg.CONFIG_SUPPRESS_INTERRUPTS = false)
    (s : State) :
    ( up_irqinitialize cfg s).mstatus
      = (up_irq_save cfg s).2.mstatus ||| cfg.MSTATUS_MIE := by
  simp only [ up_irqinitialize, h, up_irq_enable, READ_AND_SET_CSR_MSTATUS, SET_CSR_MIE,
    riscv_exception_attach]
  exact congrArg (· ||| cfg.MSTATUS_MIE) (priorityLoop_mstatus cfg _ _ _)

theorem init_mie (cfg : Config) (h : cfg.CONFIG_SUPPRESS_INTERRUPTS = false)
    (s : State) :
    ( up_irqinitialize cfg s).mie = s.mie ||| cfg.MIE_MEIE := by
  simp only [ up_irqinitialize, h, up_irq_enable, READ_AND_SET_CSR_MSTATUS, SET_CSR_MIE,
    riscv_exception_attach]
  exact congrArg (· ||| cfg.MIE_MEIE) (priorityLoop_mie cfg _ _ _)

/-- C10: for every starting register state, when `CONFIG_SUPPRESS_INTERRUPTS` is
off, `up_irqinitialize()` ends with every bit of `MSTATUS_MIE` set in `mstatus`
(global admission on) and every bit of `MIE_MEIE` set in `mie` (external
reception on), although its first step, `up_irq_save()`, left the admission bit
clear. -/
theorem init_ends_with_interrupts_enabled (cfg : Config)
    (h : cfg.CONFIG_SUPPRESS_INTERRUPTS = false) (s : State) :
    ( up_irqinitialize cfg s).mstatus &&& cfg.MSTATUS_MIE = cfg.MSTATUS_MIE
    ∧ ( up_irqinitialize cfg s).mie &&& cfg.MIE_MEIE = cfg.MIE_MEIE
    ∧ (up_irq_save cfg s).2.mstatus &&& cfg.MSTATUS_MIE = 0 := by
  refine ⟨?_, ?_, ?_⟩
  · rw [init_mstatus cfg h]
    apply Nat.eq_of_testBit_eq
    intro i
    simp only [Nat.testBit_and, Nat.testBit_or]
    cases (up_irq_save cfg s).2.mstatus.testBit i <;> cases cfg.MSTATUS_MIE.testBit i <;> rfl
  · rw [init_mie cfg h]
    apply Nat.eq_of_testBit_eq
    intro i
    simp only [Nat.testBit_and, Nat.testBit_or]
    cases s.mie.testBit i <;> cases cfg.MIE_MEIE.testBit i <;> rfl
  · apply Nat.eq_of_testBit_eq
    intro i
    simp only [up_irq_save, Nat.testBit_and, testBit_andNot, Nat.zero_testBit]
    cases s.mstatus.testBit i <;> cases cfg.MSTATUS_MIE.testBit i <;> rfl

/-- Witness for `init_ends_with_interrupts_enabled`: the sample constants (switch
off), from a state with global admission already on. -/
theorem init_ends_with_interrupts_enabled_witness :
    ( up_irqinitialize sampleConfig { zeroState with mstatus := 0x8 }).mstatus
        &&& sampleConfig.MSTATUS_MIE = sampleConfig.MSTATUS_MIE
    ∧ ( up_irqinitialize sampleConfig { zeroState with mstatus := 0x8 }).mie
        &&& sampleConfig.MIE_MEIE = sampleConfig.MIE_MEIE
    ∧ (up_irq_save sampleConfig { zeroState with mstatus := 0x8 }).2.mstatus
        &&& sampleConfig.MSTATUS_MIE = 0 :=
  init_ends_with_interrupts_enabled sampleConfig rfl { zeroState with mstatus := 0x8 }

/-! ## Acknowledgment -/

/-- C11: for every id and every register state, `riscv_ack_irq(id)` returns and
leaves the whole register state unchanged; in particular the claim/complete
register holds what it held before. -/
theorem riscv_ack_irq_noop (cfg : Config) (id : Int) (s : State) :
    riscv_ack_irq cfg id s = s
    ∧ getreg32 cfg.SG2002_PLIC_MCLAIM (riscv_ack_irq cfg id s)
        = getreg32 cfg.SG2002_PLIC_MCLAIM s :=
  ⟨rfl, rfl⟩

/-! ## The range test of `up_disable_irq` -/

theorem up_disable_irq_isPanic_above_base (cfg : Config) (s : State) (id : Int)
    (hs : id ≠ cfg.RISCV_IRQ_MSOFT) (ht : id ≠ cfg.RISCV_IRQ_MTIMER)
    (hb : cfg.RISCV_IRQ_MEXT < id) :
    (up_disable_irq cfg id s).isPanic = true
      ↔ ¬(cfg.SG2002_IRQ_TEMPSENS ≤ 0 ∧ 0 ≤ cfg.SG2002_IRQ_MBOX) := by
  by_cases hz : cfg.SG2002_IRQ_TEMPSENS ≤ 0 ∧ 0 ≤ cfg.SG2002_IRQ_MBOX
  · rw [up_disable_irq_clears cfg s id hs ht hb hz]
    simp [Outcome.isPanic, hz]
  · have hp : up_disable_irq cfg id s = .panicked s := by
      simp only [up_disable_irq, hs, ht, if_false, gt_iff_lt, hb, if_true, hz]
    rw [hp]
    simp [Outcome.isPanic, hz]

/-- C12: in `up_disable_irq` the external-source range test reads `extirq` while
it is still 0: for an id strictly above the base the call is fatal exactly when
0 lies outside `SG2002_IRQ_TEMPSENS .. SG2002_IRQ_MBOX`, whatever the id; so
for any two ids strictly above the base and any register state,
`up_disable_irq` is fatal on one exactly when it is fatal on the other. -/
theorem up_disable_irq_fatal_independent_of_id (cfg : Config)
    (hs : cfg.RISCV_IRQ_MSOFT ≤ cfg.RISCV_IRQ_MEXT)
    (ht : cfg.RISCV_IRQ_MTIMER ≤ cfg.RISCV_IRQ_MEXT)
    (s : State) (id1 id2 : Int)
    (h1 : cfg.RISCV_IRQ_MEXT < id1) (h2 : cfg.RISCV_IRQ_MEXT < id2) :
    ((up_disable_irq cfg id1 s).isPanic = true
        ↔ ¬(cfg.SG2002_IRQ_TEMPSENS ≤ 0 ∧ 0 ≤ cfg.SG2002_IRQ_MBOX))
    ∧ ((up_disable_irq cfg id1 s).isPanic = true
        ↔ (up_disable_irq cfg id2 s).isPanic = true) := by
  have e1 := up_disable_irq_isPanic_above_base cfg s id1 (by omega) (by omega) h1
  have e2 := up_disable_irq_isPanic_above_base cfg s id2 (by omega) (by omega) h2
  exact ⟨e1, e1.trans e2.symm⟩

/-- Witness for `up_disable_irq_fatal_independent_of_id`: a supported id (51)
and an id past the supported range (97) with the sample constants. -/
theorem up_disable_irq_fatal_independent_of_id_witness :
    ((up_disable_irq sampleConfig 51 zeroState).isPanic = true
        ↔ ¬(sampleConfig.SG2002_IRQ_TEMPSENS ≤ 0 ∧ 0 ≤ sampleConfig.SG2002_IRQ_MBOX))
    ∧ ((up_disable_irq sampleConfig 51 zeroState).isPanic = true
        ↔ (up_disable_irq sampleConfig 97 zeroState).isPanic = true) :=
  up_disable_irq_fatal_independent_of_id sampleConfig (by decide) (by decide) zeroState 51 97
    (by decide) (by decide)

/-! ## Ids that are neither core traps nor above the base -/

/-- C13: for every id that is neither `RISCV_IRQ_MSOFT` nor `RISCV_IRQ_MTIMER`
and is not strictly greater than `RISCV_IRQ_MEXT` (the base itself included),
`up_enable_irq(id)` and `up_disable_irq(id)` return normally and leave the
entire register state unchanged. -/
theorem not_above_base_noop (cfg : Config) (s : State) (id : Int)
    (hs : id ≠ cfg.RISCV_IRQ_MSOFT) (ht : id ≠ cfg.RISCV_IRQ_MTIMER)
    (hb : ¬(id > cfg.RISCV_IRQ_MEXT)) :
    up_enable_irq cfg id s = .returned s ∧ up_disable_irq cfg id s = .returned s :=
  ⟨up_enable_irq_below cfg s id hs ht (by omega),
    up_disable_irq_below cfg s id hs ht (by omega)⟩

/-- Witness for `not_above_base_noop`: the base id itself (35 with the sample
constants), from a state whose memory-mapped words are all ones. -/
theorem not_above_base_noop_witness :
    up_enable_irq sampleConfig 35 onesState = .returned onesState
    ∧ up_disable_irq sampleConfig 35 onesState = .returned onesState :=
  not_above_base_noop sampleConfig onesState 35 (by decide) (by decide) (by decide)

/-! ## Initialization covers every source that can be enabled -/

/-- C14: for every id on which `up_enable_irq` writes an enable-bank bit and
returns normally (id above `RISCV_IRQ_MEXT` with
`SG2002_IRQ_TEMPSENS ≤ id ≤ SG2002_IRQ_MBOX`), the priority register at index
`id - RISCV_IRQ_MEXT` reads 1 after `up_irqinitialize()`, from any starting
state; no source that can be enabled is left at priority 0. -/
theorem enabled_sources_have_priority (cfg : Config) (hn : Numbering cfg) (hl : Layout cfg)
    (s s0 : State) (id : Int)
    (hb : cfg.RISCV_IRQ_MEXT < id)
    (hlo : cfg.SG2002_IRQ_TEMPSENS ≤ id) (hhi : id ≤ cfg.SG2002_IRQ_MBOX) :
    up_enable_irq cfg id s = .returned
        (modifyreg32 (enableAddr cfg (id - cfg.RISCV_IRQ_MEXT)) 0
          (bitMask32 ((id - cfg.RISCV_IRQ_MEXT).tmod 32)) s)
    ∧ getreg32 (priorityAddr cfg (id - cfg.RISCV_IRQ_MEXT)) ( up_irqinitialize cfg s0) = 1
    ∧ getreg32 (priorityAddr cfg (id - cfg.RISCV_IRQ_MEXT)) ( up_irqinitialize cfg s0) ≠ 0 := by
  have h1 := hn.msoft_lt
  have h2 := hn.mtimer_lt
  have hp := init_priority_written cfg hn hl s0 (id - cfg.RISCV_IRQ_MEXT) (by omega) (by omega)
  refine ⟨up_enable_irq_supported cfg s id (by omega) (by omega) hb hlo hhi, hp, ?_⟩
  rw [hp]
  decide

/-- Witness for `enabled_sources_have_priority`: the mailbox source (id 96) of
the sample constants, from power-on defaults. -/
theorem enabled_sources_have_priority_witness :
    up_enable_irq sampleConfig 96 zeroState = .returned
        (modifyreg32 (enableAddr sampleConfig (96 - sampleConfig.RISCV_IRQ_MEXT)) 0
          (bitMask32 ((96 - sampleConfig.RISCV_IRQ_MEXT).tmod 32)) zeroState)
    ∧ getreg32 (priorityAddr sampleConfig (96 - sampleConfig.RISCV_IRQ_MEXT))
        ( up_irqinitialize sampleConfig zeroState) = 1
    ∧ getreg32 (priorityAddr sampleConfig (96 - sampleConfig.RISCV_IRQ_MEXT))
        ( up_irqinitialize sampleConfig zeroState) ≠ 0 :=
  enabled_sources_have_priority sampleConfig sampleConfig_numbering sampleConfig_layout
    zeroState zeroState 96 (by decide) (by decide) (by decide)

/-! ## Idempotence of `up_enable_irq` -/

theorem set_word_idem (v m : Nat) :
    (andNot (((andNot (v % 2 ^ 32) 0) ||| m) % 2 ^ 32 % 2 ^ 32) 0 ||| m) % 2 ^ 32
      = ((andNot (v % 2 ^ 32) 0) ||| m) % 2 ^ 32 := by
  apply Nat.eq_of_testBit_eq
  intro i
  simp only [andNot_zero, Nat.testBit_mod_two_pow, Nat.testBit_or]
  cases decide (i < 32) <;> cases v.testBit i <;> cases m.testBit i <;> rfl

theorem modifyreg32_set_idem (a m : Nat) (s : State) :
    modifyreg32 a 0 m (modifyreg32 a 0 m s) = modifyreg32 a 0 m s := by
  simp only [modifyreg32, putreg32, getreg32, State.mk.injEq, true_and]
  funext x
  by_cases hx : x = a
  · simp only [hx, if_true]
    exact set_word_idem (s.mem a) m
  · simp only [hx, if_false]

theorem SET_CSR_MIE_idem (m : Nat) (s : State) :
    SET_CSR_MIE m (SET_CSR_MIE m s) = SET_CSR_MIE m s := by
  simp only [SET_CSR_MIE, State.mk.injEq, and_true]
  apply Nat.eq_of_testBit_eq
  intro i
  simp only [Nat.testBit_or]
  cases s.mie.testBit i <;> cases m.testBit i <;> rfl

/-- C15: `up_enable_irq` is idempotent: for every id and register state on which
`up_enable_irq(id)` returns normally, a second call on the resulting state also
returns normally and yields exactly that same register state. -/
theorem up_enable_irq_idempotent (cfg : Config) (id : Int) (s : State)
    (h : (up_enable_irq cfg id s).isPanic = false) :
    ∃ s1, up_enable_irq cfg id s = .returned s1
      ∧ up_enable_irq cfg id s1 = .returned s1 := by
  by_cases c1 : id = cfg.RISCV_IRQ_MSOFT
  · refine ⟨SET_CSR_MIE cfg.MIE_MSIE s, ?_, ?_⟩
    · simp only [up_enable_irq, c1, if_true]
    · simp only [up_enable_irq, c1, if_true, SET_CSR_MIE_idem]
  by_cases c2 : id = cfg.RISCV_IRQ_MTIMER
  · subst c2
    refine ⟨SET_CSR_MIE cfg.MIE_MTIE s, ?_, ?_⟩
    · simp only [up_enable_irq, c1, if_false, if_true]
    · simp only [up_enable_irq, c1, if_false, if_true, SET_CSR_MIE_idem]
  by_cases c3 : cfg.RISCV_IRQ_MEXT < id
  · by_cases c4 : cfg.SG2002_IRQ_TEMPSENS ≤ id ∧ id ≤ cfg.SG2002_IRQ_MBOX
    · refine ⟨_, up_enable_irq_supported cfg s id c1 c2 c3 c4.1 c4.2, ?_⟩
      rw [up_enable_irq_supported cfg _ id c1 c2 c3 c4.1 c4.2, modifyreg32_set_idem]
    · rw [up_enable_irq_unsupported cfg s id c1 c2 c3 c4] at h
      cases h
  · exact ⟨s, up_enable_irq_below cfg s id c1 c2 (by omega),
      up_enable_irq_below cfg s id c1 c2 (by omega)⟩

/-- Witness for `up_enable_irq_idempotent`: the temperature-sensor source of the
sample constants, from power-on defaults. -/
theorem up_enable_irq_idempotent_witness :
    ∃ s1, up_enable_irq sampleConfig 51 zeroState = .returned s1
      ∧ up_enable_irq sampleConfig 51 s1 = .returned s1 :=
  up_enable_irq_idempotent sampleConfig 51 zeroState (by decide)

end SG2002
